import Mathlib

/-!
Shallow embedding of `server.js` from the CompanySearch repository: a small
Express proxy in front of the Companies House API.  The pipeline is
CORS origin check → fixed-window rate limiter → shared-secret auth
(bypassed for `/health`) → route handler.  JSON bodies are modelled by an
inductive `Json` type; handlers take the outcome of the single outbound
`fetch` as an explicit `FetchResult` argument and report whether the
upstream was contacted.
-/

namespace CompanySearch

/-- JSON values, as produced by `res.json(...)` and `await r.json()`. -/
inductive Json where
  | null
  | bool (b : Bool)
  | num (n : Int)
  | str (s : String)
  | arr (elems : List Json)
  | obj (fields : List (String × Json))

/-- First-match lookup of a key in a JS object field list
(`data.items`, `x.title`, ...). -/
def lookupStr : List (String × Json) → String → Option Json
  | [], _ => none
  | (k', v) :: rest, k => if k = k' then some v else lookupStr rest k

/-- Property access `j.k`.  On `null` JavaScript throws a TypeError
(outer `none`); on an object it yields the field or `undefined`
(`some none`); on any other value it yields `undefined`. -/
def jsGet (j : Json) (k : String) : Option (Option Json) :=
  match j with
  | Json.null => none
  | Json.obj fs => some (lookupStr fs k)
  | _ => some none

/-- JavaScript truthiness of a JSON value. -/
def jsTruthy : Json → Bool
  | Json.null => false
  | Json.bool b => b
  | Json.num n => decide (n ≠ 0)
  | Json.str s => decide (s ≠ "")
  | Json.arr _ => true
  | Json.obj _ => true

/-- `(data.items || []).map ...`: accessing `.items` on a `null` body
throws (`none`), `undefined` or a falsy value gives the empty list, an
array gives its elements, and calling `.map` on a truthy non-array
throws (`none`).  A throw is caught by the handler and becomes the 500
fallback. -/
def itemsField (data : Json) : Option (List Json) :=
  match jsGet data "items" with
  | none => none
  | some none => some []
  | some (some (Json.arr xs)) => some xs
  | some (some v) => if jsTruthy v then none else some []

/-- Body `{error: <msg>}`. -/
def errorBody (msg : String) : Json := Json.obj [("error", Json.str msg)]

/-- Body `{error: "CH error", detail: <text>}` forwarded on a non-success
upstream status. -/
def chErrorBody (detail : String) : Json :=
  Json.obj [("error", Json.str "CH error"), ("detail", Json.str detail)]

/-- Body `{items: [...]}`. -/
def itemsBody (xs : List Json) : Json := Json.obj [("items", Json.arr xs)]

/-- Body `{ok: true}` of the health check. -/
def okBody : Json := Json.obj [("ok", Json.bool true)]

/-- `[(k, v)]` when the source field is present, `[]` when it is
`undefined` (JSON serialisation drops `undefined`-valued properties). -/
def optField (k : String) (v : Option Json) : List (String × Json) :=
  match v with
  | some j => [(k, j)]
  | none => []

/-- Search hit projection
`x => ({title: x.title, company_number: x.company_number,
company_status: x.company_status, address_snippet: x.address_snippet})`;
property access on a `null` item throws (`none`). -/
def projectSearchItem (x : Json) : Option Json :=
  match jsGet x "title", jsGet x "company_number", jsGet x "company_status",
      jsGet x "address_snippet" with
  | some tv, some cn, some cs, some av =>
    some (Json.obj (optField "title" tv ++
      (optField "company_number" cn ++
        (optField "company_status" cs ++ optField "address_snippet" av))))
  | _, _, _, _ => none

/-- Officer projection `o => ({name: o.name, appointed_on: o.appointed_on,
resigned_on: o.resigned_on, role: o.officer_role})`; property access on a
`null` item throws (`none`). -/
def projectOfficer (o : Json) : Option Json :=
  match jsGet o "name", jsGet o "appointed_on", jsGet o "resigned_on",
      jsGet o "officer_role" with
  | some nv, some ao, some ro, some rl =>
    some (Json.obj (optField "name" nv ++
      (optField "appointed_on" ao ++
        (optField "resigned_on" ro ++ optField "role" rl))))
  | _, _, _, _ => none

/-- `xs.map f` for a projection that can throw: the first throwing
element aborts the whole map (the exception propagates to the catch
clause of the handler). -/
def mapJs (f : Json → Option Json) : List Json → Option (List Json)
  | [] => some []
  | x :: rest =>
    match f x with
    | none => none
    | some y =>
      match mapJs f rest with
      | none => none
      | some ys => some (y :: ys)

/-- An upstream HTTP reply: status, body read as text, and the result of
parsing the body as JSON (`none` = `r.json()` throws). -/
structure HttpReply where
  status : Nat
  bodyText : String
  jsonBody : Option Json

/-- `r.ok`: status in the range 200–299. -/
def HttpReply.ok (r : HttpReply) : Bool := decide (200 ≤ r.status) && decide (r.status < 300)

/-- Outcome of the outbound `fetch`: a reply, or a network-level rejection
(caught by the catch clause of the handler). -/
inductive FetchResult where
  | reply (r : HttpReply)
  | netErr

/-- What a route handler produced: whether it contacted the upstream, and
the HTTP status and JSON body it responded with. -/
structure HandlerResult where
  calledUpstream : Bool
  status : Nat
  body : Json

/-- `GET /companies-house/search` handler.  `q` is the raw query parameter
(`none` = absent). -/
def searchHandler (q : Option String) (up : FetchResult) : HandlerResult :=
  let qs := q.getD ""
  if qs = "" ∨ qs.length < 3 then ⟨false, 200, itemsBody []⟩
  else
    match up with
    | FetchResult.netErr => ⟨true, 500, itemsBody []⟩
    | FetchResult.reply r =>
      if !r.ok then ⟨true, r.status, chErrorBody r.bodyText⟩
      else
        match r.jsonBody with
        | none => ⟨true, 500, itemsBody []⟩
        | some data =>
          match itemsField data with
          | none => ⟨true, 500, itemsBody []⟩
          | some xs =>
            match mapJs projectSearchItem xs with
            | none => ⟨true, 500, itemsBody []⟩
            | some ys => ⟨true, 200, itemsBody ys⟩

/-- `GET /companies-house/:number/officers` handler. -/
def officersHandler (number : String) (up : FetchResult) : HandlerResult :=
  if number = "" then ⟨false, 200, itemsBody []⟩
  else
    match up with
    | FetchResult.netErr => ⟨true, 500, itemsBody []⟩
    | FetchResult.reply r =>
      if !r.ok then ⟨true, r.status, chErrorBody r.bodyText⟩
      else
        match r.jsonBody with
        | none => ⟨true, 500, itemsBody []⟩
        | some data =>
          match itemsField data with
          | none => ⟨true, 500, itemsBody []⟩
          | some xs =>
            match mapJs projectOfficer xs with
            | none => ⟨true, 500, itemsBody []⟩
            | some ys => ⟨true, 200, itemsBody ys⟩

/-- `GET /companies-house/:number` handler (company detail, passthrough). -/
def detailHandler (number : String) (up : FetchResult) : HandlerResult :=
  if number = "" then ⟨false, 400, errorBody "No company number"⟩
  else
    match up with
    | FetchResult.netErr => ⟨true, 500, errorBody "Failed to fetch company details"⟩
    | FetchResult.reply r =>
      if !r.ok then ⟨true, r.status, chErrorBody r.bodyText⟩
      else
        match r.jsonBody with
        | none => ⟨true, 500, errorBody "Failed to fetch company details"⟩
        | some data => ⟨true, 200, data⟩

/-! ### Rate limiter -/

/-- `WINDOW_MS = 60 * 1000`. -/
def WINDOW_MS : Nat := 60 * 1000

/-- `MAX_REQS = 60`. -/
def MAX_REQS : Nat := 60

/-- An entry of the `hits` map: `{count, ts}`. -/
structure Entry where
  count : Nat
  ts : Nat
deriving DecidableEq

/-- The `hits` map, keyed by `req.ip`. -/
def Hits : Type := String → Option Entry

/-- `new Map()`. -/
def emptyHits : Hits := fun _ => none

/-- One pass through the rate-limit middleware for key `key` at time
`now`: returns the updated map and whether the request was answered 429. -/
def rlStep (hits : Hits) (key : String) (now : Nat) : Hits × Bool :=
  let e0 := (hits key).getD ⟨0, now⟩
  let e1 := if now - e0.ts > WINDOW_MS then (⟨0, now⟩ : Entry) else e0
  let e2 : Entry := ⟨e1.count + 1, e1.ts⟩
  (fun k => if k = key then some e2 else hits k, decide (e2.count > MAX_REQS))

/-- Process a sequence of requests from one caller at the given times,
collecting the rate-limited flags in order. -/
def rlRun (hits : Hits) (key : String) : List Nat → Hits × List Bool
  | [] => (hits, [])
  | t :: rest =>
    let s := rlStep hits key t
    let r := rlRun s.1 key rest
    (r.1, s.2 :: r.2)

/-! ### CORS origin guard, auth middleware, pipeline -/

/-- `corsOptions.origin`:
`if (!origin || ORIGINS.length === 0 || ORIGINS.includes(origin))` —
`origin` is `undefined` (`none`) when the header is absent, and the empty
string is falsy. -/
def corsAllowed (origins : List String) (origin : Option String) : Bool :=
  match origin with
  | none => true
  | some o => decide (o = "") || origins.isEmpty || origins.contains o

/-- The contract of the origin guard as the spec states it, in the own
words of the spec: permit when the allow-set is empty, the header is
absent, or the header value is a member of the allow-set. -/
def corsSpecPermit (origins : List String) (origin : Option String) : Prop :=
  origins = [] ∨ origin = none ∨ ∃ o, origin = some o ∧ o ∈ origins

/-- `a || b` on header values: an absent or empty string falls through. -/
def jsOrH (a b : Option String) : Option String :=
  match a with
  | some s => if s = "" then b else some s
  | none => b

/-- `req.headers[AUTH_HEADER] || req.headers[AUTH_HEADER.toLowerCase()]
|| req.headers[AUTH_HEADER.toUpperCase()]`. -/
def authToken (authHeader : String) (headers : String → Option String) : Option String :=
  jsOrH (headers authHeader) (jsOrH (headers authHeader.toLower) (headers authHeader.toUpper))

/-- Process-level configuration (from the environment at startup). -/
structure Config where
  origins : List String
  sharedSecret : String
  authHeader : String

/-- The routes the app registers (health, search, officers, detail). -/
inductive Route where
  | health
  | search (q : Option String)
  | officers (number : String)
  | detail (number : String)
deriving DecidableEq

/-- `req.path` of each route. -/
def pathOf : Route → String
  | Route.health => "/health"
  | Route.search _ => "/companies-house/search"
  | Route.officers n => "/companies-house/" ++ n ++ "/officers"
  | Route.detail n => "/companies-house/" ++ n

/-- An inbound request: matched route, `Origin` header (`some ""` is a
present-but-empty header), header map, and `req.ip`. -/
structure Request where
  route : Route
  origin : Option String
  headers : String → Option String
  ip : String

/-- Auth middleware: `none` = `next()`, otherwise the (status, body) of the
early response. -/
def authCheck (cfg : Config) (path : String) (headers : String → Option String) :
    Option (Nat × Json) :=
  if path = "/health" then none
  else if cfg.sharedSecret = "" then
    some (500, errorBody "Server not configured (missing SHARED_SECRET)")
  else
    match authToken cfg.authHeader headers with
    | none => some (401, errorBody "Unauthorised")
    | some t =>
      if t = "" ∨ t ≠ cfg.sharedSecret then some (401, errorBody "Unauthorised") else none

/-- Result of pushing one request through the middleware chain. -/
inductive Outcome where
  | corsReject
  | http (status : Nat) (body : Json)

/-- State and response after one request. -/
structure PipelineResult where
  hits : Hits
  outcome : Outcome
  upstreamCalled : Bool

/-- Dispatch to the matched route handler. -/
def handleRoute : Route → FetchResult → HandlerResult
  | Route.health, _ => ⟨false, 200, okBody⟩
  | Route.search q, up => searchHandler q up
  | Route.officers n, up => officersHandler n up
  | Route.detail n, up => detailHandler n up

/-- The full middleware chain in registration order: CORS, rate limit,
auth, route handler.  A CORS rejection propagates as an error before the
rate-limit middleware runs. -/
def pipeline (cfg : Config) (hits : Hits) (req : Request) (now : Nat)
    (up : FetchResult) : PipelineResult :=
  if corsAllowed cfg.origins req.origin then
    let rl := rlStep hits req.ip now
    if rl.2 then ⟨rl.1, Outcome.http 429 (errorBody "Rate limit exceeded"), false⟩
    else
      match authCheck cfg (pathOf req.route) req.headers with
      | some sb => ⟨rl.1, Outcome.http sb.1 sb.2, false⟩
      | none =>
        let h := handleRoute req.route up
        ⟨rl.1, Outcome.http h.status h.body, h.calledUpstream⟩
  else ⟨hits, Outcome.corsReject, false⟩

/-! ### Concrete sample data used by the witnesses -/

/-- A header map carrying the correct shared secret. -/
def sampleHeaders : String → Option String :=
  fun n => if n = "x-ch-secret" then some "s3cret" else none

/-- A configuration with a shared secret present. -/
def sampleCfg : Config := ⟨[], "s3cret", "x-ch-secret"⟩

/-- A configuration with no shared secret. -/
def noSecretCfg : Config := ⟨[], "", "x-ch-secret"⟩

/-- A search request with the correct secret header. -/
def sampleSearchReq : Request :=
  ⟨Route.search (some "acme"), none, sampleHeaders, "203.0.113.7"⟩

/-- A request to the liveness endpoint. -/
def healthReq : Request := ⟨Route.health, none, fun _ => none, "203.0.113.8"⟩

/-- A hits map holding a caller already over the limit. -/
def sampleHits : Hits := fun k => if k = "198.51.100.1" then some ⟨61, 0⟩ else none

/-- An upstream search hit with all four projected fields plus an extra one. -/
def sampleHit : Json :=
  Json.obj [("title", Json.str "Acme Ltd"), ("company_number", Json.str "123"),
    ("company_status", Json.str "active"), ("address_snippet", Json.str "1 Road"),
    ("kind", Json.str "searchresults#company")]

/-- An upstream search body `{items: [sampleHit]}`. -/
def sampleSearchData : Json := Json.obj [("items", Json.arr [sampleHit])]

/-! ### Helper lemmas -/

lemma lookupStr_optField (k1 k : String) (v : Option Json) (rest : List (String × Json)) :
    lookupStr (optField k1 v ++ rest) k =
      match v with
      | some j => if k = k1 then some j else lookupStr rest k
      | none => lookupStr rest k := by
  cases v <;> simp [optField, lookupStr]

lemma lookupStr_optField_nil (k1 k : String) (v : Option Json) :
    lookupStr (optField k1 v) k =
      match v with
      | some j => if k = k1 then some j else none
      | none => none := by
  cases v <;> simp [optField, lookupStr]

lemma projectSearchItem_eq_none (x : Json) :
    projectSearchItem x = none ↔ x = Json.null := by
  cases x <;> simp [projectSearchItem, jsGet]

lemma mapJs_eq_none_iff (f : Json → Option Json)
    (hf : ∀ x, f x = none ↔ x = Json.null) :
    ∀ xs : List Json, mapJs f xs = none ↔ Json.null ∈ xs := by
  intro xs
  induction xs with
  | nil => simp [mapJs]
  | cons x rest ih =>
    cases hfx : f x with
    | none =>
      have hx : x = Json.null := (hf x).mp hfx
      subst hx
      simp [mapJs, hfx, List.mem_cons]
    | some y =>
      have hx : ¬ (Json.null = x) := by
        intro hh
        rw [(hf x).mpr hh.symm] at hfx
        exact Option.noConfusion hfx
      cases hrest : mapJs f rest with
      | none =>
        simp [mapJs, hfx, hrest, List.mem_cons, ih.mp hrest]
      | some ys =>
        have h5 : ¬ Json.null ∈ rest := by
          intro hm
          rw [ih.mpr hm] at hrest
          exact Option.noConfusion hrest
        simp [mapJs, hfx, hrest, List.mem_cons, h5, hx]

lemma rlStep_within (hits : Hits) (key : String) (now c t1 : Nat)
    (h : hits key = some ⟨c, t1⟩) (hw : now - t1 ≤ WINDOW_MS) :
    (rlStep hits key now).1 key = some ⟨c + 1, t1⟩ ∧
    (rlStep hits key now).2 = decide (c + 1 > MAX_REQS) := by
  have hcond : ¬ (now - (Entry.mk c t1).ts > WINDOW_MS) := by
    show ¬ (now - t1 > WINDOW_MS); omega
  refine ⟨?_, ?_⟩
  · simp only [rlStep, h, Option.getD_some]
    rw [if_neg hcond]
    simp
  · simp only [rlStep, h, Option.getD_some]
    rw [if_neg hcond]

lemma rlStep_reset (hits : Hits) (key : String) (now c t1 : Nat)
    (h : hits key = some ⟨c, t1⟩) (hw : now - t1 > WINDOW_MS) :
    (rlStep hits key now).1 key = some ⟨1, now⟩ ∧
    (rlStep hits key now).2 = false := by
  have hcond : now - (Entry.mk c t1).ts > WINDOW_MS := by
    show now - t1 > WINDOW_MS; omega
  refine ⟨?_, ?_⟩
  · simp only [rlStep, h, Option.getD_some]
    rw [if_pos hcond]
    simp
  · simp only [rlStep, h, Option.getD_some]
    rw [if_pos hcond]
    rfl

lemma rlStep_fresh (hits : Hits) (key : String) (now : Nat) (h : hits key = none) :
    (rlStep hits key now).1 key = some ⟨1, now⟩ ∧
    (rlStep hits key now).2 = false := by
  have hcond : ¬ (now - (Entry.mk 0 now).ts > WINDOW_MS) := by
    show ¬ (now - now > WINDOW_MS); omega
  refine ⟨?_, ?_⟩
  · simp only [rlStep, h, Option.getD_none]
    rw [if_neg hcond]
    simp
  · simp only [rlStep, h, Option.getD_none]
    rw [if_neg hcond]
    rfl

lemma rlRun_within (key : String) :
    ∀ (ts : List Nat) (hits : Hits) (c t1 : Nat),
      hits key = some ⟨c, t1⟩ → (∀ t ∈ ts, t - t1 ≤ WINDOW_MS) →
      (rlRun hits key ts).1 key = some ⟨c + ts.length, t1⟩ ∧
      (rlRun hits key ts).2 =
        (List.range ts.length).map (fun i => decide (c + i + 1 > MAX_REQS)) := by
  intro ts
  induction ts with
  | nil => intro hits c t1 h _; simpa [rlRun] using h
  | cons t rest ih =>
    intro hits c t1 h hw
    have hwt : t - t1 ≤ WINDOW_MS := hw t (List.mem_cons_self t rest)
    obtain ⟨h1, h2⟩ := rlStep_within hits key t c t1 h hwt
    obtain ⟨ih1, ih2⟩ := ih (rlStep hits key t).1 (c + 1) t1 h1
      (fun u hu => hw u (List.mem_cons_of_mem t hu))
    refine ⟨?_, ?_⟩
    · simp only [rlRun]
      rw [ih1]
      simp only [List.length_cons]
      congr 2
      omega
    · simp only [rlRun]
      rw [h2, ih2]
      simp only [List.length_cons, List.range_succ_eq_map, List.map_cons, List.map_map]
      congr 1
      apply List.map_congr_left
      intro a _
      simp only [Function.comp_apply, decide_eq_decide]
      omega

lemma pathOf_ne_health (r : Route) (hr : r ≠ Route.health) : pathOf r ≠ "/health" := by
  cases r with
  | health => exact absurd rfl hr
  | search q => simp only [pathOf]; decide
  | officers n =>
    intro h
    have hl := congrArg String.length h
    simp only [pathOf, String.length_append] at hl
    have e1 : ("/companies-house/" : String).length = 17 := by decide
    have e2 : ("/officers" : String).length = 9 := by decide
    have e3 : ("/health" : String).length = 7 := by decide
    omega
  | detail n =>
    intro h
    have hl := congrArg String.length h
    simp only [pathOf, String.length_append] at hl
    have e1 : ("/companies-house/" : String).length = 17 := by decide
    have e3 : ("/health" : String).length = 7 := by decide
    omega

/-! ### Claim theorems -/

/-- C7: for every detail request whose company number is empty, the
response is HTTP 400 with body {error: "No company number"}, issued
before any outbound upstream call. -/
theorem detail_empty_number_400 (up : FetchResult) :
    detailHandler "" up = ⟨false, 400, errorBody "No company number"⟩ := rfl

/-- C6: for every search request whose term q is missing or shorter than
three characters, and for every officers request with an empty company
number, the endpoint responds HTTP 200 with body {items: []} without
making any outbound upstream call. -/
theorem short_term_no_upstream_call (q : Option String) (up upO : FetchResult)
    (hq : q = none ∨ (q.getD "").length < 3) :
    searchHandler q up = ⟨false, 200, itemsBody []⟩ ∧
    officersHandler "" upO = ⟨false, 200, itemsBody []⟩ := by
  have hlen : (q.getD "").length < 3 := by
    rcases hq with h | h
    · subst h; simp
    · exact h
  refine ⟨?_, ?_⟩
  · simp only [searchHandler]
    rw [if_pos (Or.inr hlen)]
  · rfl

/-- Witness for C6 at q = "ab". -/
theorem short_term_no_upstream_call_witness :
    searchHandler (some "ab") FetchResult.netErr = ⟨false, 200, itemsBody []⟩ ∧
    officersHandler "" FetchResult.netErr = ⟨false, 200, itemsBody []⟩ :=
  short_term_no_upstream_call (some "ab") FetchResult.netErr FetchResult.netErr
    (Or.inr (by decide))

/-- C4: for every upstream response with a non-success HTTP status, each
of the three proxy endpoints reads the upstream body as text and responds
with the same status code and body {error: "CH error", detail: body text}. -/
theorem upstream_error_forwarded (q n m t : String) (s : Nat) (jb : Option Json)
    (hq : ¬(q = "" ∨ q.length < 3)) (hn : n ≠ "") (hm : m ≠ "")
    (hs : s < 200 ∨ 300 ≤ s) :
    searchHandler (some q) (FetchResult.reply ⟨s, t, jb⟩) = ⟨true, s, chErrorBody t⟩ ∧
    officersHandler n (FetchResult.reply ⟨s, t, jb⟩) = ⟨true, s, chErrorBody t⟩ ∧
    detailHandler m (FetchResult.reply ⟨s, t, jb⟩) = ⟨true, s, chErrorBody t⟩ := by
  have hok : HttpReply.ok ⟨s, t, jb⟩ = false := by
    rcases hs with h | h
    · have hh : ¬ 200 ≤ s := by omega
      simp [HttpReply.ok, hh]
    · have hh : ¬ s < 300 := by omega
      simp [HttpReply.ok, hh]
  refine ⟨?_, ?_, ?_⟩
  · simp only [searchHandler, Option.getD_some]
    rw [if_neg hq]
    simp [hok]
  · simp only [officersHandler]
    rw [if_neg hn]
    simp [hok]
  · simp only [detailHandler]
    rw [if_neg hm]
    simp [hok]

/-- Witness for C4: a 404 with body text "not found" is forwarded by all
three endpoints. -/
theorem upstream_error_forwarded_witness :
    searchHandler (some "acme") (FetchResult.reply ⟨404, "not found", none⟩) =
      ⟨true, 404, chErrorBody "not found"⟩ ∧
    officersHandler "123" (FetchResult.reply ⟨404, "not found", none⟩) =
      ⟨true, 404, chErrorBody "not found"⟩ ∧
    detailHandler "456" (FetchResult.reply ⟨404, "not found", none⟩) =
      ⟨true, 404, chErrorBody "not found"⟩ :=
  upstream_error_forwarded "acme" "123" "456" "not found" 404 none (by decide)
    (by decide) (by decide) (by omega)

/-- C8: for every transport-level failure of the outbound upstream call
(network error or JSON parse failure), the endpoint responds HTTP 500
with {items: []} for search and officers and with
{error: "Failed to fetch company details"} for detail. -/
theorem transport_failure_fallback (q n m t : String) (s : Nat)
    (hq : ¬(q = "" ∨ q.length < 3)) (hn : n ≠ "") (hm : m ≠ "")
    (hs : 200 ≤ s ∧ s < 300) :
    searchHandler (some q) FetchResult.netErr = ⟨true, 500, itemsBody []⟩ ∧
    searchHandler (some q) (FetchResult.reply ⟨s, t, none⟩) = ⟨true, 500, itemsBody []⟩ ∧
    officersHandler n FetchResult.netErr = ⟨true, 500, itemsBody []⟩ ∧
    officersHandler n (FetchResult.reply ⟨s, t, none⟩) = ⟨true, 500, itemsBody []⟩ ∧
    detailHandler m FetchResult.netErr =
      ⟨true, 500, errorBody "Failed to fetch company details"⟩ ∧
    detailHandler m (FetchResult.reply ⟨s, t, none⟩) =
      ⟨true, 500, errorBody "Failed to fetch company details"⟩ := by
  have hok : HttpReply.ok ⟨s, t, none⟩ = true := by
    simp only [HttpReply.ok, Bool.and_eq_true, decide_eq_true_eq]
    omega
  refine ⟨?_, ?_, ?_, ?_, ?_, ?_⟩
  · simp only [searchHandler, Option.getD_some]
    rw [if_neg hq]
  · simp only [searchHandler, Option.getD_some]
    rw [if_neg hq]
    simp [hok]
  · simp only [officersHandler]
    rw [if_neg hn]
  · simp only [officersHandler]
    rw [if_neg hn]
    simp [hok]
  · simp only [detailHandler]
    rw [if_neg hm]
  · simp only [detailHandler]
    rw [if_neg hm]
    simp [hok]

/-- Witness for C8 at a 200 reply whose body fails to parse, and at a
network error. -/
theorem transport_failure_fallback_witness :
    searchHandler (some "acme") FetchResult.netErr = ⟨true, 500, itemsBody []⟩ ∧
    searchHandler (some "acme") (FetchResult.reply ⟨200, "x", none⟩) =
      ⟨true, 500, itemsBody []⟩ ∧
    officersHandler "123" FetchResult.netErr = ⟨true, 500, itemsBody []⟩ ∧
    officersHandler "123" (FetchResult.reply ⟨200, "x", none⟩) =
      ⟨true, 500, itemsBody []⟩ ∧
    detailHandler "456" FetchResult.netErr =
      ⟨true, 500, errorBody "Failed to fetch company details"⟩ ∧
    detailHandler "456" (FetchResult.reply ⟨200, "x", none⟩) =
      ⟨true, 500, errorBody "Failed to fetch company details"⟩ :=
  transport_failure_fallback "acme" "123" "456" "x" 200 (by decide) (by decide)
    (by decide) (by omega)

/-- C5 counterexample: a successful (200) upstream search response whose
items array contains a null item, and one whose JSON body is null, both
make the handler throw inside the try block and answer 500 {items: []} —
not the 200-with-projection / treated-as-empty responses the claim
asserts for every successful upstream response. -/
theorem search_projection_claim_cex :
    searchHandler (some "acme")
      (FetchResult.reply ⟨200, "", some (Json.obj [("items", Json.arr [Json.null])])⟩) =
      ⟨true, 500, itemsBody []⟩ ∧
    searchHandler (some "acme") (FetchResult.reply ⟨200, "", some Json.null⟩) =
      ⟨true, 500, itemsBody []⟩ :=
  ⟨rfl, rfl⟩

/-- C5 amended: for every successful upstream search response whose JSON
body is not null, a missing items array yields 200 {items: []}; each
non-null item is projected to exactly the four fields title,
company_number, company_status, address_snippet (copied verbatim if
present, absent otherwise, no extra fields); and a null body or a null
item instead lands in the catch clause and yields 500 {items: []} —
projection throws exactly on null items. -/
theorem search_success_projection (q bt : String) (s : Nat) (d : Json)
    (hq : ¬(q = "" ∨ q.length < 3)) (hs : 200 ≤ s ∧ s < 300) :
    (∀ xs ys, jsGet d "items" = some (some (Json.arr xs)) →
      mapJs projectSearchItem xs = some ys →
      searchHandler (some q) (FetchResult.reply ⟨s, bt, some d⟩) =
        ⟨true, 200, itemsBody ys⟩) ∧
    (jsGet d "items" = some none →
      searchHandler (some q) (FetchResult.reply ⟨s, bt, some d⟩) =
        ⟨true, 200, itemsBody []⟩) ∧
    (∀ x y, projectSearchItem x = some y → ∀ k, jsGet y k =
      if k = "title" ∨ k = "company_number" ∨ k = "company_status" ∨
        k = "address_snippet" then jsGet x k else some none) ∧
    (∀ xs, mapJs projectSearchItem xs = none ↔ Json.null ∈ xs) ∧
    (∀ xs, jsGet d "items" = some (some (Json.arr xs)) →
      mapJs projectSearchItem xs = none →
      searchHandler (some q) (FetchResult.reply ⟨s, bt, some d⟩) =
        ⟨true, 500, itemsBody []⟩) ∧
    (d = Json.null →
      searchHandler (some q) (FetchResult.reply ⟨s, bt, some d⟩) =
        ⟨true, 500, itemsBody []⟩) := by
  have hok : HttpReply.ok ⟨s, bt, some d⟩ = true := by
    simp only [HttpReply.ok, Bool.and_eq_true, decide_eq_true_eq]
    omega
  refine ⟨?_, ?_, ?_, ?_, ?_, ?_⟩
  · intro xs ys hxs hmap
    simp only [searchHandler, Option.getD_some]
    rw [if_neg hq]
    simp [hok, itemsField, hxs, hmap]
  · intro hnone
    simp only [searchHandler, Option.getD_some]
    rw [if_neg hq]
    simp [hok, itemsField, hnone, mapJs]
  · intro x y hy k
    rcases e1 : jsGet x "title" with _ | tv <;>
      rcases e2 : jsGet x "company_number" with _ | cn <;>
      rcases e3 : jsGet x "company_status" with _ | cs <;>
      rcases e4 : jsGet x "address_snippet" with _ | av <;>
      simp only [projectSearchItem, e1, e2, e3, e4, Option.some.injEq,
        reduceCtorEq] at hy
    subst hy
    rw [show jsGet (Json.obj (optField "title" tv ++ (optField "company_number" cn ++
      (optField "company_status" cs ++ optField "address_snippet" av)))) k =
      some (lookupStr (optField "title" tv ++ (optField "company_number" cn ++
      (optField "company_status" cs ++ optField "address_snippet" av))) k) from rfl]
    rw [lookupStr_optField, lookupStr_optField, lookupStr_optField,
      lookupStr_optField_nil]
    by_cases h1 : k = "title" <;> by_cases h2 : k = "company_number" <;>
      by_cases h3 : k = "company_status" <;> by_cases h4 : k = "address_snippet" <;>
      cases tv <;> cases cn <;> cases cs <;> cases av <;>
      simp_all
  · exact mapJs_eq_none_iff projectSearchItem projectSearchItem_eq_none
  · intro xs hxs hmap
    simp only [searchHandler, Option.getD_some]
    rw [if_neg hq]
    simp [hok, itemsField, hxs, hmap]
  · intro hd
    subst hd
    simp only [searchHandler, Option.getD_some]
    rw [if_neg hq]
    simp [hok, itemsField, jsGet]

/-- Witness for C5: the sample hit is trimmed to exactly the four fields
(the extra upstream field kind is dropped). -/
theorem search_success_projection_witness :
    searchHandler (some "acme") (FetchResult.reply ⟨200, "", some sampleSearchData⟩) =
      ⟨true, 200, itemsBody [Json.obj [("title", Json.str "Acme Ltd"),
        ("company_number", Json.str "123"), ("company_status", Json.str "active"),
        ("address_snippet", Json.str "1 Road")]]⟩ ∧
    jsGet (Json.obj [("title", Json.str "Acme Ltd"),
      ("company_number", Json.str "123"), ("company_status", Json.str "active"),
      ("address_snippet", Json.str "1 Road")]) "kind" = some none := by
  have h := search_success_projection "acme" "" 200 sampleSearchData (by decide)
    (by omega)
  refine ⟨h.1 [sampleHit] [Json.obj [("title", Json.str "Acme Ltd"),
    ("company_number", Json.str "123"), ("company_status", Json.str "active"),
    ("address_snippet", Json.str "1 Road")]] rfl rfl, ?_⟩
  have h3 := h.2.2.1 sampleHit (Json.obj [("title", Json.str "Acme Ltd"),
    ("company_number", Json.str "123"), ("company_status", Json.str "active"),
    ("address_snippet", Json.str "1 Road")]) rfl "kind"
  exact h3.trans rfl

/-- C9 counterexample: with a non-empty allow-set not containing the
value, a present-but-empty Origin header is permitted by the code, while
the claim (permit only if the set is empty, the header absent, or the
value a member) says it must be rejected. -/
theorem cors_guard_claim_cex :
    corsAllowed ["https://app.example"] (some "") = true ∧
    ¬ corsSpecPermit ["https://app.example"] (some "") := by
  refine ⟨rfl, ?_⟩
  rintro (h | h | ⟨o, ho, hmem⟩)
  · exact List.cons_ne_nil _ _ h
  · exact Option.noConfusion h
  · injection ho with ho2
    subst ho2
    simp at hmem

/-- C9 amended: the origin guard permits a request if and only if the
allow-set is empty, or the Origin header is absent or empty, or the
header value is a member of the allow-set. -/
theorem cors_guard_allow_iff (origins : List String) (origin : Option String) :
    corsAllowed origins origin = true ↔
      (origins = [] ∨ origin = none ∨ origin = some "" ∨
        ∃ o, origin = some o ∧ o ∈ origins) := by
  cases origin with
  | none => simp [corsAllowed]
  | some o =>
    have hbool : corsAllowed origins (some o) =
        (decide (o = "") || origins.isEmpty || origins.contains o) := rfl
    rw [hbool]
    simp only [Bool.or_eq_true, decide_eq_true_eq]
    constructor
    · intro hb
      rcases hb with (h | h) | h
      · exact Or.inr (Or.inr (Or.inl (by rw [h])))
      · exact Or.inl (List.isEmpty_iff.mp h)
      · exact Or.inr (Or.inr (Or.inr ⟨o, rfl, List.elem_iff.mp h⟩))
    · intro hh
      rcases hh with h | h | h | ⟨o2, ho2, hmem⟩
      · simp [List.isEmpty_iff.mpr h]
      · exact Option.noConfusion h
      · injection h with h2
        simp [h2]
      · injection ho2 with ho2e
        subst ho2e
        have hc : origins.contains o = true := List.elem_iff.mpr hmem
        simp [hc]
        exact Or.inr hmem

/-- C3: the rate limiter keeps a fixed-window counter per caller, resets
it when more than 60 seconds have elapsed since the window start,
increments it on every request, and answers 429 exactly when the
post-increment count exceeds 60: starting fresh, the 61st request within
one window is flagged (the first 60 are not), and the first request after
the window elapses is not flagged. -/
theorem rate_limiter_fixed_window (key : String) (t0 : Nat) (ts : List Nat)
    (hlen : ts.length = 60) (hwin : ∀ u ∈ ts, u - t0 ≤ WINDOW_MS) :
    (rlRun emptyHits key (t0 :: ts)).2 = List.replicate 60 false ++ [true] ∧
    ∀ u, u - t0 > WINDOW_MS →
      (rlStep (rlRun emptyHits key (t0 :: ts)).1 key u).2 = false := by
  obtain ⟨hf1, hf2⟩ := rlStep_fresh emptyHits key t0 rfl
  obtain ⟨hm1, hm2⟩ := rlRun_within key ts (rlStep emptyHits key t0).1 1 t0 hf1 hwin
  have hstate : (rlRun emptyHits key (t0 :: ts)).1 key = some ⟨61, t0⟩ := by
    simp only [rlRun]
    rw [hm1, hlen]
  refine ⟨?_, ?_⟩
  · simp only [rlRun]
    rw [hf2, hm2, hlen]
    decide
  · intro u hu
    exact (rlStep_reset _ key u 61 t0 hstate hu).2

/-- Witness for C3: 61 immediate requests from one caller, then one
request after the window has elapsed. -/
theorem rate_limiter_fixed_window_witness :
    (rlRun emptyHits "203.0.113.9" (0 :: List.replicate 60 0)).2 =
      List.replicate 60 false ++ [true] ∧
    (rlStep (rlRun emptyHits "203.0.113.9" (0 :: List.replicate 60 0)).1
      "203.0.113.9" 60001).2 = false := by
  have h := rate_limiter_fixed_window "203.0.113.9" 0 (List.replicate 60 0)
    (by decide) (by decide)
  exact ⟨h.1, h.2 60001 (by decide)⟩

/-- C10: within a window the stored counter is incremented by every
request, including rate-limited ones, and is never decreased except by a
window reset; once a request is answered 429, every subsequent in-window
request from the same caller is answered 429 as well. -/
theorem rate_limiter_count_monotone (hits : Hits) (key : String) (now now2 c t1 : Nat)
    (h : hits key = some ⟨c, t1⟩) :
    (now - t1 ≤ WINDOW_MS → (rlStep hits key now).1 key = some ⟨c + 1, t1⟩) ∧
    (∀ c2 t2, (rlStep hits key now).1 key = some ⟨c2, t2⟩ →
      c2 = c + 1 ∨ (c2 = 1 ∧ t2 = now)) ∧
    ((rlStep hits key now).2 = true →
      ∀ c2 t2, (rlStep hits key now).1 key = some ⟨c2, t2⟩ → now2 - t2 ≤ WINDOW_MS →
        (rlStep (rlStep hits key now).1 key now2).2 = true) := by
  refine ⟨?_, ?_, ?_⟩
  · intro hw
    exact (rlStep_within hits key now c t1 h hw).1
  · intro c2 t2 h2
    by_cases hw : now - t1 ≤ WINDOW_MS
    · have heq := ((rlStep_within hits key now c t1 h hw).1).symm.trans h2
      simp only [Option.some.injEq, Entry.mk.injEq] at heq
      exact Or.inl heq.1.symm
    · have heq := ((rlStep_reset hits key now c t1 h (by omega)).1).symm.trans h2
      simp only [Option.some.injEq, Entry.mk.injEq] at heq
      exact Or.inr ⟨heq.1.symm, heq.2.symm⟩
  · intro hflag c2 t2 h2 hw2
    by_cases hw : now - t1 ≤ WINDOW_MS
    · have hs := rlStep_within hits key now c t1 h hw
      have hc : c + 1 > MAX_REQS := by
        rw [hs.2] at hflag
        exact of_decide_eq_true hflag
      have heq := (hs.1).symm.trans h2
      simp only [Option.some.injEq, Entry.mk.injEq] at heq
      have hnext := rlStep_within (rlStep hits key now).1 key now2 c2 t2 h2 hw2
      rw [hnext.2]
      apply decide_eq_true
      omega
    · have hr := (rlStep_reset hits key now c t1 h (by omega)).2
      rw [hr] at hflag
      exact absurd hflag (by simp)

/-- Witness for C10: a caller already at count 61 is incremented to 62
and the following in-window request is flagged again. -/
theorem rate_limiter_count_monotone_witness :
    (rlStep sampleHits "198.51.100.1" 1).1 "198.51.100.1" = some ⟨62, 0⟩ ∧
    (rlStep (rlStep sampleHits "198.51.100.1" 1).1 "198.51.100.1" 2).2 = true := by
  have h := rate_limiter_count_monotone sampleHits "198.51.100.1" 1 2 61 0 (by decide)
  exact ⟨h.1 (by decide), h.2.2 (by decide) 62 0 (h.1 (by decide)) (by decide)⟩

/-- C2: when no shared secret is configured, every request that passes
the CORS and rate-limit guards and targets a path other than /health is
answered HTTP 500 with {error: "Server not configured (missing
SHARED_SECRET)"} before reaching any route handler, while a request to
/health is answered HTTP 200 with {ok: true}. -/
theorem missing_secret_500 (cfg : Config) (hits : Hits) (req : Request) (now : Nat)
    (up : FetchResult)
    (hsec : cfg.sharedSecret = "")
    (hcors : corsAllowed cfg.origins req.origin = true)
    (hrl : (rlStep hits req.ip now).2 = false) :
    (req.route ≠ Route.health →
      (pipeline cfg hits req now up).outcome =
        Outcome.http 500 (errorBody "Server not configured (missing SHARED_SECRET)") ∧
      (pipeline cfg hits req now up).upstreamCalled = false) ∧
    (req.route = Route.health →
      (pipeline cfg hits req now up).outcome = Outcome.http 200 okBody ∧
      (pipeline cfg hits req now up).upstreamCalled = false) := by
  constructor
  · intro hne
    have hp : pathOf req.route ≠ "/health" := pathOf_ne_health _ hne
    have hauth : authCheck cfg (pathOf req.route) req.headers =
        some (500, errorBody "Server not configured (missing SHARED_SECRET)") := by
      simp [authCheck, hp, hsec]
    refine ⟨?_, ?_⟩ <;> simp [pipeline, hcors, hrl, hauth]
  · intro he
    have hauth : authCheck cfg (pathOf Route.health) req.headers = none := by
      simp [authCheck, pathOf]
    refine ⟨?_, ?_⟩ <;> simp [pipeline, hcors, hrl, he, hauth, handleRoute]

/-- Witness for C2: with no secret configured, the search endpoint is
answered 500 without an upstream call and /health is answered 200. -/
theorem missing_secret_500_witness :
    (pipeline noSecretCfg emptyHits sampleSearchReq 0 FetchResult.netErr).outcome =
      Outcome.http 500 (errorBody "Server not configured (missing SHARED_SECRET)") ∧
    (pipeline noSecretCfg emptyHits sampleSearchReq 0 FetchResult.netErr).upstreamCalled =
      false ∧
    (pipeline noSecretCfg emptyHits healthReq 0 FetchResult.netErr).outcome =
      Outcome.http 200 okBody := by
  have h1 := (missing_secret_500 noSecretCfg emptyHits sampleSearchReq 0
    FetchResult.netErr rfl (by decide) (by decide)).1 (by decide)
  have h2 := (missing_secret_500 noSecretCfg emptyHits healthReq 0
    FetchResult.netErr rfl (by decide) (by decide)).2 rfl
  exact ⟨h1.1, h1.2, h2.1⟩

/-- C1: when a shared secret is configured, for every request that passes
the CORS and rate-limit guards and targets a path other than /health, the
token read from the configured header name (checked as configured,
lower-cased, upper-cased) is compared to the secret: on exact equality
the request proceeds to the route handler, otherwise (absent or unequal)
the response is HTTP 401 with {error: "Unauthorised"}. -/
theorem auth_header_token_check (cfg : Config) (hits : Hits) (req : Request) (now : Nat)
    (up : FetchResult)
    (hsec : cfg.sharedSecret ≠ "")
    (hroute : req.route ≠ Route.health)
    (hcors : corsAllowed cfg.origins req.origin = true)
    (hrl : (rlStep hits req.ip now).2 = false) :
    (authToken cfg.authHeader req.headers = some cfg.sharedSecret →
      (pipeline cfg hits req now up).outcome =
        Outcome.http (handleRoute req.route up).status (handleRoute req.route up).body ∧
      (pipeline cfg hits req now up).upstreamCalled =
        (handleRoute req.route up).calledUpstream) ∧
    (authToken cfg.authHeader req.headers ≠ some cfg.sharedSecret →
      (pipeline cfg hits req now up).outcome = Outcome.http 401 (errorBody "Unauthorised") ∧
      (pipeline cfg hits req now up).upstreamCalled = false) := by
  have hp : pathOf req.route ≠ "/health" := pathOf_ne_health _ hroute
  constructor
  · intro htok
    have hauth : authCheck cfg (pathOf req.route) req.headers = none := by
      simp only [authCheck]
      rw [if_neg hp, if_neg hsec, htok]
      simp [hsec]
    refine ⟨?_, ?_⟩ <;> simp [pipeline, hcors, hrl, hauth]
  · intro htok
    have hauth : authCheck cfg (pathOf req.route) req.headers =
        some (401, errorBody "Unauthorised") := by
      simp only [authCheck]
      rw [if_neg hp, if_neg hsec]
      cases ht : authToken cfg.authHeader req.headers with
      | none => rfl
      | some tk =>
        have hne : tk ≠ cfg.sharedSecret := fun hh => htok (by rw [ht, hh])
        simp [hne]
    refine ⟨?_, ?_⟩ <;> simp [pipeline, hcors, hrl, hauth]

/-- Witness for C1: the correct token reaches the search handler (which
calls upstream and falls back on the network error). -/
theorem auth_header_token_check_witness :
    (pipeline sampleCfg emptyHits sampleSearchReq 0 FetchResult.netErr).outcome =
      Outcome.http 500 (itemsBody []) ∧
    (pipeline sampleCfg emptyHits sampleSearchReq 0 FetchResult.netErr).upstreamCalled =
      true := by
  have h := (auth_header_token_check sampleCfg emptyHits sampleSearchReq 0
    FetchResult.netErr (by decide) (by decide) (by decide) (by decide)).1 (by decide)
  exact h

end CompanySearch
